import Mathlib

/-!
Verification development for the Schlangen multiplayer snake server.

The Go sources are shallowly embedded: `float64` arithmetic is modelled by `ℚ`,
Go `int` by `ℤ` (list lengths stay `ℕ` and are cast where the source compares
them with `int` fields), and Go strings by `String` (or by UTF-8 byte lists
where the source manipulates raw bytes).  The transcendental library calls
(`math.Cos`, `math.Sin`, `math.Atan2`) and the random source (`rand.Float64`,
`rand.Intn`) are modelled as oracle parameters: functions supplied from outside,
so every definition stays computable.  Closed evaluations instantiate the
oracles only at arguments where the chosen rational values coincide with the
true library values (for instance the angle 0, where cos = 1 and sin = 0
exactly).
-/

namespace Schlangen

/-- 2-D point with rational coordinates (Go `Vec2` with `float64` fields). -/
structure Vec2 where
  x : ℚ
  y : ℚ
deriving DecidableEq, Repr

/-- Food pellet (Go `Food`). -/
structure Food where
  x : ℚ
  y : ℚ
  colorIdx : ℤ
  radius : ℚ
  value : ℚ
deriving DecidableEq, Repr

/-- Snake entity (Go `Snake`).  `segments` holds the polyline, head first. -/
structure Snake where
  name : String
  segments : List Vec2
  angle : ℚ
  targetAngle : ℚ
  speed : ℚ
  colorIdx : ℤ
  isAI : Bool
  playerID : ℤ
  score : ℤ
  targetLen : ℤ
  boost : ℚ
  isBoosting : Bool
  alive : Bool
  invTimer : ℤ
  respawnTmr : ℤ
  aiState : String
  aiStateTimer : ℤ
  aiTargetAngle : ℚ
deriving DecidableEq, Repr

/-- Game configuration (Go `GameConfig`). -/
structure GameConfig where
  worldSize : ℤ
  foodCount : ℤ
  aiCount : ℤ
  baseSpeed : ℚ
  boostSpeed : ℚ
  turnSpeed : ℚ
  maxBoost : ℚ
  boostDrain : ℚ
  boostRegen : ℚ
  baseSnakeLen : ℤ
  killFoodCount : ℤ
  boundaryMargin : ℚ
  aiRespawnTicks : ℤ
deriving DecidableEq, Repr

/-- Go `DefaultConfig()`. -/
def defaultConfig : GameConfig :=
  { worldSize := 10000, foodCount := 3000, aiCount := 30
    baseSpeed := 16/5, boostSpeed := 11/2, turnSpeed := 2/25
    maxBoost := 100, boostDrain := 3/5, boostRegen := 3/20
    baseSnakeLen := 10, killFoodCount := 8, boundaryMargin := 50
    aiRespawnTicks := 180 }

/-- Steering input message (Go `InputMsg`). -/
structure InputMsg where
  playerID : ℤ
  angle : ℚ
  boost : Bool
deriving DecidableEq, Repr

/-- Oracle for the transcendental library functions used by the engine.
`atan2` takes its arguments in Go order (y first, then x). -/
structure Trig where
  cos : ℚ → ℚ
  sin : ℚ → ℚ
  atan2 : ℚ → ℚ → ℚ

/-- Go `distSq(x1,y1,x2,y2)`: squared Euclidean distance. -/
def distSqQ (a b : Vec2) : ℚ :=
  (b.x - a.x) * (b.x - a.x) + (b.y - a.y) * (b.y - a.y)

/-- Go `clampF(v, lo, hi)`. -/
def clampQ (v lo hi : ℚ) : ℚ :=
  if v < lo then lo else if v > hi then hi else v

/-- Go `angleDiff`'s wrapping loops, in closed form: starting from `d`,
subtract `2*pi` while the value exceeds `pi`, then add `2*pi` while it is
below `-pi`.  Each loop runs a computable number of iterations once
`0 < pi`; the ceiling expressions give exactly the loop results. -/
def wrapToPi (pi d : ℚ) : ℚ :=
  let d1 := if pi < d then d - 2 * pi * ⌈(d - pi) / (2 * pi)⌉ else d
  if d1 < -pi then d1 + 2 * pi * ⌈(-pi - d1) / (2 * pi)⌉ else d1

/-- Go `angleDiff(a, b)`: the wrapped difference `b - a`. -/
def angleDiffQ (pi a b : ℚ) : ℚ := wrapToPi pi (b - a)

/-- Go `headRadius(s) = 12 + min(|segments|*0.03, 6)`. -/
def headRadiusQ (s : Snake) : ℚ :=
  12 + min ((s.segments.length : ℚ) * (3/100)) 6

/-- Go `bodyRadius(s) = 10 + min(|segments|*0.025, 5)`. -/
def bodyRadiusQ (s : Snake) : ℚ :=
  10 + min ((s.segments.length : ℚ) * (1/40)) 5

/-- Head of a segment list (Go `s.Segments[0]`; the source only evaluates this
on non-empty lists, where the default is never used). -/
def hdSeg (segs : List Vec2) : Vec2 := segs.headD ⟨0, 0⟩

/-- Placeholder snake used as a `getD` default in statements. -/
def sDefault : Snake :=
  { name := "", segments := [], angle := 0, targetAngle := 0, speed := 0
    colorIdx := 0, isAI := false, playerID := 0, score := 0, targetLen := 0
    boost := 0, isBoosting := false, alive := false, invTimer := 0
    respawnTmr := 0, aiState := "", aiStateTimer := 0, aiTargetAngle := 0 }

/-- Go `createSnake`.  The heading drawn by `rand.Float64()*2*math.Pi` is
modelled by the oracle draw `r` times `2 * piQ`. -/
def createSnake (T : Trig) (piQ r : ℚ) (cfg : GameConfig) (name : String)
    (x y : ℚ) (colorIdx : ℤ) (isAI : Bool) (pid : ℤ) : Snake :=
  let angle := r * 2 * piQ
  let segs := (List.range cfg.baseSnakeLen.toNat).map fun i : ℕ =>
    Vec2.mk (x - T.cos angle * 8 * (i : ℚ)) (y - T.sin angle * 8 * (i : ℚ))
  { name := name, segments := segs, angle := angle, targetAngle := angle
    speed := cfg.baseSpeed, colorIdx := colorIdx, isAI := isAI, playerID := pid
    score := 0, targetLen := cfg.baseSnakeLen, boost := cfg.maxBoost
    isBoosting := false, alive := true, invTimer := 120, respawnTmr := 0
    aiState := "wander", aiStateTimer := 0, aiTargetAngle := angle }

/-- Go `growSnake(s, amt)`. -/
def growSnake (s : Snake) (amt : ℤ) : Snake :=
  { s with targetLen := s.targetLen + amt, score := s.score + amt }

/-- First statement of Go `updateSnake` after the alive guard: decrement the
invulnerability timer when positive. -/
def stepInv (s : Snake) : Snake :=
  if 0 < s.invTimer then { s with invTimer := s.invTimer - 1 } else s

/-- Steering: `s.Angle += clampF(angleDiff(s.Angle, s.TargetAngle), -TurnSpeed,
TurnSpeed) * 1.8`. -/
def stepSteer (piQ : ℚ) (cfg : GameConfig) (s : Snake) : Snake :=
  { s with angle := s.angle +
      clampQ (angleDiffQ piQ s.angle s.targetAngle) (-cfg.turnSpeed) cfg.turnSpeed * (9/5) }

/-- Boost handling of Go `updateSnake`: drain and possibly shed a pellet near
the tail while boosting, otherwise reset speed and regenerate.  `jf`/`jc`
are the oracle streams for `rand.Float64` / `rand.Intn` draws. -/
def stepBoost (jf : ℕ → ℚ) (jc : ℕ → ℤ) (cfg : GameConfig) (frame : ℤ)
    (s : Snake) : Snake × List Food :=
  if s.isBoosting = true ∧ 0 < s.boost ∧ 12 < s.segments.length then
    if frame % 8 = 0 ∧ cfg.baseSnakeLen < s.targetLen then
      ({ s with speed := cfg.boostSpeed, boost := s.boost - cfg.boostDrain
                targetLen := s.targetLen - 1 },
       [{ x := (s.segments.getLastD ⟨0, 0⟩).x + jf 0 * 20 - 10
          y := (s.segments.getLastD ⟨0, 0⟩).y + jf 1 * 20 - 10
          colorIdx := jc 0, radius := 6, value := 1 }])
    else ({ s with speed := cfg.boostSpeed, boost := s.boost - cfg.boostDrain }, [])
  else
    ({ s with speed := cfg.baseSpeed, isBoosting := false
              boost := if s.boost < cfg.maxBoost then s.boost + cfg.boostRegen else s.boost }, [])

/-- Pellets scattered along a corpse by Go `killSnake`: every `step`-th
segment (with `step = max (len/KillFoodCount) 1`) yields one pellet jittered
by the oracle draws. -/
def killFoods (jf : ℕ → ℚ) (jc : ℕ → ℤ) (cfg : GameConfig)
    (segs : List Vec2) : List Food :=
  let step := (max ((segs.length : ℤ) / cfg.killFoodCount) 1).toNat
  let count := (segs.length + step - 1) / step
  (List.range count).map fun i =>
    let seg := segs.getD (i * step) ⟨0, 0⟩
    { x := seg.x + jf (4 * i) * 30 - 15
      y := seg.y + jf (4 * i + 1) * 30 - 15
      colorIdx := jc i
      radius := 7 + jf (4 * i + 2) * 4
      value := 2 + jf (4 * i + 3) * 3 }

/-- Go `killSnake`: mark dead, arm the AI respawn timer, scatter pellets. -/
def killSnake (jf : ℕ → ℚ) (jc : ℕ → ℤ) (cfg : GameConfig)
    (s : Snake) : Snake × List Food :=
  if s.alive = false then (s, [])
  else
    ({ s with alive := false
              respawnTmr := if s.isAI then cfg.aiRespawnTicks else s.respawnTmr },
     killFoods jf jc cfg s.segments)

/-- The tail-truncation loop of Go `updateSnake`: drop the last segment while
`len(segments) > TargetLen` (dropping from the end repeatedly is taking the
prefix; when the target is negative the source would panic on the empty
slice, the model takes the empty prefix instead). -/
def truncateTo (tl : ℤ) (segs : List Vec2) : List Vec2 :=
  if (segs.length : ℤ) ≤ tl then segs else segs.take tl.toNat

/-- The advanced head position `(headX + cos θ·speed, headY + sin θ·speed)`. -/
def newHead (T : Trig) (s : Snake) : Vec2 :=
  ⟨(hdSeg s.segments).x + T.cos s.angle * s.speed,
   (hdSeg s.segments).y + T.sin s.angle * s.speed⟩

/-- The boundary test of Go `updateSnake`: the point leaves the box inset
`BoundaryMargin` from each edge. -/
def outOfBounds (cfg : GameConfig) (v : Vec2) : Bool :=
  decide (v.x < cfg.boundaryMargin ∨ (cfg.worldSize : ℚ) - cfg.boundaryMargin < v.x ∨
          v.y < cfg.boundaryMargin ∨ (cfg.worldSize : ℚ) - cfg.boundaryMargin < v.y)

/-- Movement phase of Go `updateSnake`: advance the head; at the boundary a
human dies and an AI pivots toward the arena centre and skips the move;
otherwise prepend the new head and truncate the tail to `TargetLen`. -/
def stepMove (T : Trig) (jf : ℕ → ℚ) (jc : ℕ → ℤ) (cfg : GameConfig)
    (s : Snake) : Snake × List Food :=
  if outOfBounds cfg (newHead T s) then
    if s.isAI = false then killSnake jf jc cfg s
    else
      ({ s with targetAngle :=
           T.atan2 ((cfg.worldSize : ℚ)/2 - (hdSeg s.segments).y)
                   ((cfg.worldSize : ℚ)/2 - (hdSeg s.segments).x) }, [])
  else
    (({ s with segments := truncateTo s.targetLen (newHead T s :: s.segments) } : Snake), [])

/-- Go `updateSnake`, assembled from its phases in source order; returns the
updated snake together with the pellets appended to the world food list. -/
def updateSnake (T : Trig) (piQ : ℚ) (jf : ℕ → ℚ) (jc : ℕ → ℤ)
    (cfg : GameConfig) (frame : ℤ) (s : Snake) : Snake × List Food :=
  if s.alive = false then (s, [])
  else
    let s1 := stepSteer piQ cfg (stepInv s)
    let p2 := stepBoost jf jc cfg frame s1
    let p3 := stepMove T jf jc cfg p2.1
    (p3.1, p2.2 ++ p3.2)

/-- The countdown loop of Go `checkFoodCollision`: indices are visited from
the end of the food list toward the front; a hit grows the snake by the
rounded pellet value and removes the pellet by swapping in the current last
element and dropping the tail slot. -/
def foodLoop (head : Vec2) (hr : ℚ) : ℕ → List Food → Snake → List Food × Snake
  | 0, foods, s => (foods, s)
  | i + 1, foods, s =>
    match foods[i]? with
    | none => foodLoop head hr i foods s
    | some f =>
      if distSqQ head ⟨f.x, f.y⟩ < (hr + f.radius) * (hr + f.radius) then
        let s1 := growSnake s (round f.value)
        let foods1 := (foods.set i (foods.getLastD f)).take (foods.length - 1)
        foodLoop head hr i foods1 s1
      else foodLoop head hr i foods s

/-- Go `checkFoodCollision(s)`: head radius and head position are computed
once, then every pellet is tested back-to-front. -/
def checkFoodCollision (s : Snake) (foods : List Food) : Snake × List Food :=
  if s.alive = false then (s, foods)
  else
    let r := foodLoop (hdSeg s.segments) (headRadiusQ s) foods.length foods s
    (r.2, r.1)

/-- Inner segment scan of Go `checkSnakeCollisions`: does any of `o`'s
segments from index 5 on lie within the kill threshold of `s`'s head? -/
def bodyHit (s o : Snake) : Bool :=
  let thr := headRadiusQ s + bodyRadiusQ o - 4
  (o.segments.drop 5).any fun seg =>
    decide (distSqQ (hdSeg s.segments) seg < thr * thr)

/-- Candidate test of the inner loop of Go `checkSnakeCollisions` for the
attacker at index `i`: the snake at index `j` is a killer candidate when it
is a different, alive snake that passes the rough head-distance early-out
and has a body hit. -/
def killerCand (snakes : List Snake) (i : ℕ) (s : Snake) (j : ℕ) : Bool :=
  if j = i then false
  else
    match snakes[j]? with
    | none => false
    | some o =>
      if o.alive = false then false
      else
        let maxReach := (o.segments.length : ℚ) * 8
        let bound := maxReach + headRadiusQ s + 50
        if decide (bound * bound < distSqQ (hdSeg s.segments) (hdSeg o.segments))
        then false
        else bodyHit s o

/-- Index of the first snake (in list order) whose body kills `s`, if any. -/
def killerIdx (snakes : List Snake) (i : ℕ) (s : Snake) : Option ℕ :=
  (List.range snakes.length).find? (killerCand snakes i s)

/-- World state owned by the tick loop: the snake list, the food list, and
the player table (player id paired with the index of the owned snake, if
any; Go stores a pointer into the snake list). -/
structure World where
  snakes : List Snake
  foods : List Food
  players : List (ℤ × Option ℕ)
deriving DecidableEq, Repr

/-- One outer iteration of Go `checkSnakeCollisions` for the snake at index
`i`: skip the dead and the invulnerable; otherwise the first killer causes
`s` to die (scattering pellets) and the killer to grow by
`int(len(s.Segments)*0.3)`.  `jf`/`jc` supply the scatter randomness for
victim index `i`. -/
def collideStep (jf : ℕ → ℕ → ℚ) (jc : ℕ → ℕ → ℤ) (cfg : GameConfig)
    (w : World) (i : ℕ) : World :=
  match w.snakes[i]? with
  | none => w
  | some s =>
    if s.alive = false ∨ 0 < s.invTimer then w
    else
      match killerIdx w.snakes i s with
      | none => w
      | some j =>
        let dead := killSnake (jf i) (jc i) cfg s
        let snakes1 := w.snakes.set i dead.1
        let snakes2 :=
          match snakes1[j]? with
          | some o => snakes1.set j (growSnake o ((3 * (s.segments.length : ℤ)) / 10))
          | none => snakes1
        { w with snakes := snakes2, foods := w.foods ++ dead.2 }

/-- Go `checkSnakeCollisions`: resolve every snake in stable list order. -/
def checkSnakeCollisions (jf : ℕ → ℕ → ℚ) (jc : ℕ → ℕ → ℤ)
    (cfg : GameConfig) (w : World) : World :=
  (List.range w.snakes.length).foldl (collideStep jf jc cfg) w

/-- The input case of Go `drainMessages`: look the player up in the table
and, when it owns a living snake, overwrite that snake's target angle and
boost flag in place. -/
def applyInput (w : World) (m : InputMsg) : World :=
  match w.players.find? (fun q => decide (q.1 = m.playerID)) with
  | some (_, some si) =>
    match w.snakes[si]? with
    | some s =>
      if s.alive = true then
        let s1 : Snake := { s with targetAngle := m.angle, isBoosting := m.boost }
        { w with snakes := w.snakes.set si s1 }
      else w
    | none => w
  | _ => w

/-- Content of one serialized state frame.  The byte encoder `serializeState`
is a pure function of exactly this data (snake records, `hasMeta` vector,
culled food, food flag), so the frame content is modelled instead of the
raw bytes. -/
structure StateFrame where
  visible : List Snake
  hasMeta : List Bool
  foods : List Food
  includeFood : Bool
deriving DecidableEq, Repr

/-- Per-connection session state (Go `Player`): the owned snake is an index
into the world snake list (a pointer in the source), the outbound queue is a
channel of capacity 8, and `knownSnakes` is the metadata cache. -/
structure Player where
  id : ℤ
  name : String
  snake : Option ℕ
  sendCh : List StateFrame
  knownSnakes : Finset ℤ
deriving DecidableEq

/-- Per-snake flags byte of the binary protocol: bit0 alive, bit1 boosting,
bit2 isHuman, bit3 hasMeta. -/
def flagsByte (s : Snake) (meta : Bool) : ℕ :=
  (if s.alive then 1 else 0) + (if s.isBoosting then 2 else 0) +
  (if s.isAI then 0 else 4) + (if meta then 8 else 0)

/-- Viewport distance constant (`ViewDist`). -/
def viewDistQ : ℚ := 2500

/-- Food viewport distance constant (`FoodViewDist`). -/
def foodViewDistQ : ℚ := 1200

/-- Go `serializeStateFor`: compute the viewer centre, the visible set (own
snake always first, then every other alive snake with non-empty segments
within the Chebyshev viewport), the `hasMeta` vector against the session's
metadata cache, and the culled food; then replace the cache by exactly the
visible id set.  Returns the frame content and the updated session. -/
def serializeStateFor (snakes : List Snake) (foods : List Food)
    (worldSize : ℚ) (p : Player) (includeFood : Bool) : StateFrame × Player :=
  let ownOpt := p.snake.bind fun i => snakes[i]?
  let c : Vec2 :=
    match ownOpt with
    | some s => if 0 < s.segments.length then hdSeg s.segments
                else ⟨worldSize / 2, worldSize / 2⟩
    | none => ⟨worldSize / 2, worldSize / 2⟩
  let own : List Snake := match ownOpt with | some s => [s] | none => []
  let others : List Snake :=
    (snakes.enum.filter fun q =>
      decide (p.snake ≠ some q.1) && q.2.alive && decide (q.2.segments.length ≠ 0) &&
      decide (|(hdSeg q.2.segments).x - c.x| < viewDistQ + 1000) &&
      decide (|(hdSeg q.2.segments).y - c.y| < viewDistQ + 1000)).map Prod.snd
  let visible := own ++ others
  let metaVec := visible.map fun s => decide (s.playerID ∉ p.knownSnakes)
  let newKnown := (visible.map fun s => s.playerID).toFinset
  let vfood :=
    if includeFood then
      foods.filter fun f =>
        decide (|f.x - c.x| < foodViewDistQ) && decide (|f.y - c.y| < foodViewDistQ)
    else []
  (⟨visible, metaVec, vfood, includeFood⟩, { p with knownSnakes := newKnown })

/-- Per-session body of Go `broadcast`: sessions without a snake are
skipped; otherwise the frame is serialized (committing the metadata cache)
and pushed into the bounded queue; when the queue is full the frame is
dropped and the cache restored to its pre-serialization value.  The global
summary is appended to the frame bytes after serialization and does not
interact with the cache, so it is not part of the frame model. -/
def broadcastPlayer (snakes : List Snake) (foods : List Food)
    (worldSize : ℚ) (includeFood : Bool) (p : Player) : Player :=
  if p.snake = none then p
  else
    if (serializeStateFor snakes foods worldSize p includeFood).2.sendCh.length < 8 then
      { (serializeStateFor snakes foods worldSize p includeFood).2 with
        sendCh := (serializeStateFor snakes foods worldSize p includeFood).2.sendCh ++
          [(serializeStateFor snakes foods worldSize p includeFood).1] }
    else
      { (serializeStateFor snakes foods worldSize p includeFood).2 with
        knownSnakes := p.knownSnakes }

/-- UTF-8 bytes of the fallback name `"Player"`. -/
def playerBytes : List ℕ := [80, 108, 97, 121, 101, 114]

/-- The join-name handling of Go `readPump`: Go strings are byte sequences,
`len` counts bytes and `name[:15]` slices bytes, so names are modelled as
UTF-8 byte lists.  An empty name becomes `"Player"`, then any name longer
than 15 bytes is cut to its first 15 bytes. -/
def sanitizeName (name : List ℕ) : List ℕ :=
  let name1 := if name = [] then playerBytes else name
  if 15 < name1.length then name1.take 15 else name1

/-- Number of UTF-8 encoded characters in a byte list: the count of
non-continuation bytes (those whose top two bits are not `10`). -/
def utf8Len (bs : List ℕ) : ℕ :=
  (bs.filter fun b => decide (b / 64 ≠ 2)).length

/-! Field-preservation facts for the phases of `updateSnake`. -/

@[simp] theorem stepInv_segments (s : Snake) : (stepInv s).segments = s.segments := by
  unfold stepInv; split <;> rfl

@[simp] theorem stepInv_alive (s : Snake) : (stepInv s).alive = s.alive := by
  unfold stepInv; split <;> rfl

@[simp] theorem stepInv_isAI (s : Snake) : (stepInv s).isAI = s.isAI := by
  unfold stepInv; split <;> rfl

@[simp] theorem stepInv_boost (s : Snake) : (stepInv s).boost = s.boost := by
  unfold stepInv; split <;> rfl

@[simp] theorem stepInv_isBoosting (s : Snake) : (stepInv s).isBoosting = s.isBoosting := by
  unfold stepInv; split <;> rfl

@[simp] theorem stepInv_targetLen (s : Snake) : (stepInv s).targetLen = s.targetLen := by
  unfold stepInv; split <;> rfl

theorem stepInv_invTimer_ge (s : Snake) (n : ℤ) (h : n + 1 ≤ s.invTimer) :
    n ≤ (stepInv s).invTimer := by
  unfold stepInv; split <;> (try simp) <;> omega

@[simp] theorem stepSteer_segments (piQ : ℚ) (cfg : GameConfig) (s : Snake) :
    (stepSteer piQ cfg s).segments = s.segments := rfl

@[simp] theorem stepSteer_alive (piQ : ℚ) (cfg : GameConfig) (s : Snake) :
    (stepSteer piQ cfg s).alive = s.alive := rfl

@[simp] theorem stepSteer_isAI (piQ : ℚ) (cfg : GameConfig) (s : Snake) :
    (stepSteer piQ cfg s).isAI = s.isAI := rfl

@[simp] theorem stepSteer_boost (piQ : ℚ) (cfg : GameConfig) (s : Snake) :
    (stepSteer piQ cfg s).boost = s.boost := rfl

@[simp] theorem stepSteer_isBoosting (piQ : ℚ) (cfg : GameConfig) (s : Snake) :
    (stepSteer piQ cfg s).isBoosting = s.isBoosting := rfl

@[simp] theorem stepSteer_targetLen (piQ : ℚ) (cfg : GameConfig) (s : Snake) :
    (stepSteer piQ cfg s).targetLen = s.targetLen := rfl

@[simp] theorem stepSteer_invTimer (piQ : ℚ) (cfg : GameConfig) (s : Snake) :
    (stepSteer piQ cfg s).invTimer = s.invTimer := rfl

@[simp] theorem stepBoost_segments (jf : ℕ → ℚ) (jc : ℕ → ℤ) (cfg : GameConfig)
    (frame : ℤ) (s : Snake) : (stepBoost jf jc cfg frame s).1.segments = s.segments := by
  unfold stepBoost; split
  · split <;> rfl
  · rfl

@[simp] theorem stepBoost_alive (jf : ℕ → ℚ) (jc : ℕ → ℤ) (cfg : GameConfig)
    (frame : ℤ) (s : Snake) : (stepBoost jf jc cfg frame s).1.alive = s.alive := by
  unfold stepBoost; split
  · split <;> rfl
  · rfl

@[simp] theorem stepBoost_isAI (jf : ℕ → ℚ) (jc : ℕ → ℤ) (cfg : GameConfig)
    (frame : ℤ) (s : Snake) : (stepBoost jf jc cfg frame s).1.isAI = s.isAI := by
  unfold stepBoost; split
  · split <;> rfl
  · rfl

@[simp] theorem stepBoost_invTimer (jf : ℕ → ℚ) (jc : ℕ → ℤ) (cfg : GameConfig)
    (frame : ℤ) (s : Snake) : (stepBoost jf jc cfg frame s).1.invTimer = s.invTimer := by
  unfold stepBoost; split
  · split <;> rfl
  · rfl

/-- The boost meter after `stepBoost`: drain while effectively boosting,
otherwise regenerate below the cap. -/
theorem stepBoost_boost (jf : ℕ → ℚ) (jc : ℕ → ℤ) (cfg : GameConfig)
    (frame : ℤ) (s : Snake) :
    (stepBoost jf jc cfg frame s).1.boost =
      if s.isBoosting = true ∧ 0 < s.boost ∧ 12 < s.segments.length
      then s.boost - cfg.boostDrain
      else if s.boost < cfg.maxBoost then s.boost + cfg.boostRegen else s.boost := by
  unfold stepBoost
  split
  · split <;> rfl
  · rfl

@[simp] theorem killSnake_segments (jf : ℕ → ℚ) (jc : ℕ → ℤ) (cfg : GameConfig)
    (s : Snake) : (killSnake jf jc cfg s).1.segments = s.segments := by
  unfold killSnake; split <;> rfl

@[simp] theorem killSnake_invTimer (jf : ℕ → ℚ) (jc : ℕ → ℤ) (cfg : GameConfig)
    (s : Snake) : (killSnake jf jc cfg s).1.invTimer = s.invTimer := by
  unfold killSnake; split <;> rfl

@[simp] theorem killSnake_boost (jf : ℕ → ℚ) (jc : ℕ → ℤ) (cfg : GameConfig)
    (s : Snake) : (killSnake jf jc cfg s).1.boost = s.boost := by
  unfold killSnake; split <;> rfl

theorem killSnake_of_alive (jf : ℕ → ℚ) (jc : ℕ → ℤ) (cfg : GameConfig)
    (s : Snake) (h : s.alive = true) :
    (killSnake jf jc cfg s).1 =
      { s with alive := false
               respawnTmr := if s.isAI then cfg.aiRespawnTicks else s.respawnTmr } := by
  unfold killSnake; simp [h]

@[simp] theorem stepMove_invTimer (T : Trig) (jf : ℕ → ℚ) (jc : ℕ → ℤ)
    (cfg : GameConfig) (s : Snake) :
    (stepMove T jf jc cfg s).1.invTimer = s.invTimer := by
  unfold stepMove; split
  · split <;> simp
  · rfl

@[simp] theorem stepMove_boost (T : Trig) (jf : ℕ → ℚ) (jc : ℕ → ℤ)
    (cfg : GameConfig) (s : Snake) :
    (stepMove T jf jc cfg s).1.boost = s.boost := by
  unfold stepMove; split
  · split <;> simp
  · rfl

@[simp] theorem growSnake_alive (s : Snake) (a : ℤ) : (growSnake s a).alive = s.alive := rfl

@[simp] theorem growSnake_invTimer (s : Snake) (a : ℤ) :
    (growSnake s a).invTimer = s.invTimer := rfl

@[simp] theorem growSnake_segments (s : Snake) (a : ℤ) :
    (growSnake s a).segments = s.segments := rfl

/-- C10: every snake returned by `createSnake` starts alive with exactly
`BaseSnakeLen` segments laid out behind the drawn heading, with
`TargetLen = BaseSnakeLen`, a full boost meter `MaxBoost`, and an
invulnerability timer of 120 frames. -/
theorem createSnake_initial_state (T : Trig) (piQ r : ℚ) (cfg : GameConfig)
    (name : String) (x y : ℚ) (c : ℤ) (ai : Bool) (pid : ℤ) :
    (createSnake T piQ r cfg name x y c ai pid).alive = true ∧
    (createSnake T piQ r cfg name x y c ai pid).segments.length = cfg.baseSnakeLen.toNat ∧
    (∀ i, i < (createSnake T piQ r cfg name x y c ai pid).segments.length →
      (createSnake T piQ r cfg name x y c ai pid).segments.getD i ⟨0, 0⟩ =
        ⟨x - T.cos (r * 2 * piQ) * 8 * i, y - T.sin (r * 2 * piQ) * 8 * i⟩) ∧
    (createSnake T piQ r cfg name x y c ai pid).targetLen = cfg.baseSnakeLen ∧
    (createSnake T piQ r cfg name x y c ai pid).boost = cfg.maxBoost ∧
    (createSnake T piQ r cfg name x y c ai pid).invTimer = 120 := by
  have hseg : (createSnake T piQ r cfg name x y c ai pid).segments =
      (List.range cfg.baseSnakeLen.toNat).map (fun i : ℕ =>
        Vec2.mk (x - T.cos (r * 2 * piQ) * 8 * i) (y - T.sin (r * 2 * piQ) * 8 * i)) := by
    simp only [createSnake]
  refine ⟨rfl, ?_, ?_, rfl, rfl, rfl⟩
  · rw [hseg, List.length_map, List.length_range]
  · intro i hi
    rw [hseg] at hi ⊢
    rw [List.length_map, List.length_range] at hi
    rw [List.getD_eq_getElem?_getD, List.getElem?_map, List.getElem?_range hi]
    rfl

/-- Closed instance of `createSnake_initial_state` at a concrete input. -/
theorem createSnake_initial_state_witness :
    (createSnake ⟨fun _ => 1, fun _ => 0, fun _ _ => 0⟩ 3 (1/2) defaultConfig
        "Ana" 5000 5000 3 false 7).segments.getD 0 ⟨0, 0⟩ =
      ⟨5000 - (⟨fun _ => 1, fun _ => 0, fun _ _ => 0⟩ : Trig).cos ((1/2) * 2 * 3) * 8 * (0 : ℕ),
       5000 - (⟨fun _ => 1, fun _ => 0, fun _ _ => 0⟩ : Trig).sin ((1/2) * 2 * 3) * 8 * (0 : ℕ)⟩ :=
  (createSnake_initial_state ⟨fun _ => 1, fun _ => 0, fun _ _ => 0⟩ 3 (1/2) defaultConfig
    "Ana" 5000 5000 3 false 7).2.2.1 0 (by
      rw [(createSnake_initial_state ⟨fun _ => 1, fun _ => 0, fun _ _ => 0⟩ 3 (1/2) defaultConfig
        "Ana" 5000 5000 3 false 7).2.1]
      norm_num [defaultConfig])

/-- C9: draining one input message touches nothing but the addressed snake's
`TargetAngle` and `IsBoosting`; an unregistered player id, a player without a
snake, or a dead snake leaves the world unchanged. -/
theorem applyInput_frame_effect (w : World) (m : InputMsg) :
    (applyInput w m).foods = w.foods ∧
    (applyInput w m).players = w.players ∧
    (w.players.find? (fun q => decide (q.1 = m.playerID)) = none → applyInput w m = w) ∧
    (∀ a : ℤ, w.players.find? (fun q => decide (q.1 = m.playerID)) = some (a, none) →
      applyInput w m = w) ∧
    (∀ (a : ℤ) (si : ℕ) (s : Snake),
      w.players.find? (fun q => decide (q.1 = m.playerID)) = some (a, some si) →
      w.snakes[si]? = some s → s.alive = false → applyInput w m = w) ∧
    (∀ (a : ℤ) (si : ℕ) (s : Snake),
      w.players.find? (fun q => decide (q.1 = m.playerID)) = some (a, some si) →
      w.snakes[si]? = some s → s.alive = true →
      (applyInput w m).snakes =
        w.snakes.set si ({ s with targetAngle := m.angle, isBoosting := m.boost })) := by
  rcases hf : w.players.find? (fun q => decide (q.1 = m.playerID)) with _ | ⟨a, _ | si⟩
  · refine ⟨?_, ?_, ?_, ?_, ?_, ?_⟩ <;> simp [applyInput, hf]
  · refine ⟨?_, ?_, ?_, ?_, ?_, ?_⟩ <;> simp [applyInput, hf]
  · rcases hg : w.snakes[si]? with _ | s
    · refine ⟨?_, ?_, by simp [hf], by simp [hf], ?_, ?_⟩
      · simp [applyInput, hf, hg]
      · simp [applyInput, hf, hg]
      · intro a2 si2 s2 he hs2 _
        rw [hf] at he
        injection he with he1
        injection he1 with _ he2
        injection he2 with he3
        rw [he3.symm] at hs2
        rw [hg] at hs2
        cases hs2
      · intro a2 si2 s2 he hs2 _
        rw [hf] at he
        injection he with he1
        injection he1 with _ he2
        injection he2 with he3
        rw [he3.symm] at hs2
        rw [hg] at hs2
        cases hs2
    · by_cases hal : s.alive = true
      · refine ⟨?_, ?_, by simp [hf], by simp [hf], ?_, ?_⟩
        · simp [applyInput, hf, hg, hal]
        · simp [applyInput, hf, hg, hal]
        · intro a2 si2 s2 he hs2 hdead
          rw [hf] at he
          injection he with he1
          injection he1 with _ he2
          injection he2 with he3
          rw [he3.symm] at hs2
          rw [hg] at hs2
          injection hs2 with hs3
          rw [hs3.symm, hal] at hdead
          cases hdead
        · intro a2 si2 s2 he hs2 _
          rw [hf] at he
          injection he with he1
          injection he1 with _ he2
          injection he2 with he3
          subst he3
          rw [hg] at hs2
          injection hs2 with hs3
          subst hs3
          simp [applyInput, hf, hg, hal]
      · have hal2 : s.alive = false := by
          cases h2 : s.alive
          · rfl
          · exact absurd h2 hal
        refine ⟨?_, ?_, by simp [hf], by simp [hf], ?_, ?_⟩
        · simp [applyInput, hf, hg, hal2]
        · simp [applyInput, hf, hg, hal2]
        · intro a2 si2 s2 he hs2 _
          rw [hf] at he
          injection he with he1
          injection he1 with _ he2
          injection he2 with he3
          subst he3
          simp [applyInput, hf, hg, hal2]
        · intro a2 si2 s2 he hs2 hlive
          rw [hf] at he
          injection he with he1
          injection he1 with _ he2
          injection he2 with he3
          subst he3
          rw [hg] at hs2
          injection hs2 with hs3
          subst hs3
          rw [hal2] at hlive
          cases hlive

theorem getD_map_of_lt {α β : Type} (l : List α) (f : α → β) (dα : α) (dβ : β)
    (i : ℕ) (h : i < l.length) :
    (l.map f).getD i dβ = f (l.getD i dα) := by
  rw [List.getD_eq_getElem?_getD, List.getD_eq_getElem?_getD, List.getElem?_map,
    List.getElem?_eq_getElem h]
  rfl

/-- C2: in every serialized frame, a snake's `hasMeta` bit is set exactly when
its id is missing from the session's known-snakes set at serialization start,
and afterwards the known set is exactly the id set of the frame's visible
snakes. -/
theorem serialize_metadata (snakes : List Snake) (foods : List Food)
    (ws : ℚ) (p : Player) (incF : Bool) :
    (∀ i, i < (serializeStateFor snakes foods ws p incF).1.visible.length →
      ((serializeStateFor snakes foods ws p incF).1.hasMeta.getD i false = true ↔
        ((serializeStateFor snakes foods ws p incF).1.visible.getD i sDefault).playerID ∉
          p.knownSnakes)) ∧
    (∀ a : ℤ, a ∈ (serializeStateFor snakes foods ws p incF).2.knownSnakes ↔
      a ∈ (serializeStateFor snakes foods ws p incF).1.visible.map fun s => s.playerID) := by
  have hm : (serializeStateFor snakes foods ws p incF).1.hasMeta =
      (serializeStateFor snakes foods ws p incF).1.visible.map
        (fun s => decide (s.playerID ∉ p.knownSnakes)) := by
    simp only [serializeStateFor]
  have hk : (serializeStateFor snakes foods ws p incF).2.knownSnakes =
      ((serializeStateFor snakes foods ws p incF).1.visible.map
        fun s => s.playerID).toFinset := by
    simp only [serializeStateFor]
  constructor
  · intro i hi
    rw [hm, getD_map_of_lt _ _ sDefault _ _ hi]
    exact decide_eq_true_iff
  · intro a
    rw [hk, List.mem_toFinset]

/-- Closed instance of `serialize_metadata`: a lone own snake with id 1 that
is not yet in the cache gets its metadata bit set. -/
theorem serialize_metadata_witness :
    ((serializeStateFor
        [{ sDefault with playerID := 1, alive := true, segments := [⟨5000, 5000⟩] }] []
        10000 ⟨1, "A", some 0, [], ∅⟩ false).1.hasMeta.getD 0 false = true ↔
      ((serializeStateFor
        [{ sDefault with playerID := 1, alive := true, segments := [⟨5000, 5000⟩] }] []
        10000 ⟨1, "A", some 0, [], ∅⟩ false).1.visible.getD 0 sDefault).playerID ∉
        (⟨1, "A", some 0, [], ∅⟩ : Player).knownSnakes) :=
  (serialize_metadata
    [{ sDefault with playerID := 1, alive := true, segments := [⟨5000, 5000⟩] }] []
    10000 ⟨1, "A", some 0, [], ∅⟩ false).1 0 (by
      simp [serializeStateFor])

/-- C1: a broadcast into a session whose outbound queue is full drops the
frame (the queue is unchanged) and restores the known-snakes cache to its
pre-serialization value, so re-serializing for the same state produces the
same frame, metadata bits included. -/
theorem broadcast_drop_restores_cache (snakes : List Snake) (foods : List Food)
    (ws : ℚ) (incF : Bool) (p : Player)
    (hs : p.snake ≠ none) (hfull : 8 ≤ p.sendCh.length) :
    (broadcastPlayer snakes foods ws incF p).sendCh = p.sendCh ∧
    (broadcastPlayer snakes foods ws incF p).knownSnakes = p.knownSnakes ∧
    (serializeStateFor snakes foods ws (broadcastPlayer snakes foods ws incF p) incF).1 =
      (serializeStateFor snakes foods ws p incF).1 := by
  have hb : broadcastPlayer snakes foods ws incF p = p := by
    unfold broadcastPlayer
    rw [if_neg hs]
    have hq : ¬ ((serializeStateFor snakes foods ws p incF).2.sendCh.length < 8) := by
      have he : (serializeStateFor snakes foods ws p incF).2.sendCh = p.sendCh := by
        simp only [serializeStateFor]
      rw [he]
      omega
    rw [if_neg hq]
    have he2 : (serializeStateFor snakes foods ws p incF).2 =
        { p with knownSnakes := (serializeStateFor snakes foods ws p incF).2.knownSnakes } := by
      simp only [serializeStateFor]
    rw [he2]
  rw [hb]
  exact ⟨rfl, rfl, rfl⟩

/-- Closed instance of `broadcast_drop_restores_cache` at a session with a
saturated queue. -/
theorem broadcast_drop_restores_cache_witness :
    (broadcastPlayer
        [{ sDefault with playerID := 1, alive := true, segments := [⟨5000, 5000⟩] }] []
        10000 false
        ⟨1, "A", some 0, List.replicate 8 ⟨[], [], [], false⟩, ∅⟩).sendCh =
      (⟨1, "A", some 0, List.replicate 8 ⟨[], [], [], false⟩, ∅⟩ : Player).sendCh ∧
    (broadcastPlayer
        [{ sDefault with playerID := 1, alive := true, segments := [⟨5000, 5000⟩] }] []
        10000 false
        ⟨1, "A", some 0, List.replicate 8 ⟨[], [], [], false⟩, ∅⟩).knownSnakes =
      (⟨1, "A", some 0, List.replicate 8 ⟨[], [], [], false⟩, ∅⟩ : Player).knownSnakes ∧
    (serializeStateFor
        [{ sDefault with playerID := 1, alive := true, segments := [⟨5000, 5000⟩] }] []
        10000
        (broadcastPlayer
          [{ sDefault with playerID := 1, alive := true, segments := [⟨5000, 5000⟩] }] []
          10000 false
          ⟨1, "A", some 0, List.replicate 8 ⟨[], [], [], false⟩, ∅⟩) false).1 =
      (serializeStateFor
        [{ sDefault with playerID := 1, alive := true, segments := [⟨5000, 5000⟩] }] []
        10000 ⟨1, "A", some 0, List.replicate 8 ⟨[], [], [], false⟩, ∅⟩ false).1 :=
  broadcast_drop_restores_cache _ _ _ _ _ (by simp) (by simp)

/-- UTF-8 encoding of 16 copies of U+03B1 (GREEK SMALL LETTER ALPHA), a
16-character, 32-byte name. -/
def alphaName16 : List ℕ := (List.replicate 16 [206, 177]).flatten

/-- C8 counterexample: the source truncates join names by bytes, not by
characters.  A 16-character name of two-byte characters is cut to 15 bytes,
which is not its first 15 characters (it is 7 whole characters plus a
dangling lead byte, 8 non-continuation bytes in total). -/
theorem sanitizeName_not_char_based :
    utf8Len alphaName16 = 16 ∧ 15 < utf8Len alphaName16 ∧
    sanitizeName alphaName16 ≠ (List.replicate 15 [206, 177]).flatten ∧
    utf8Len (sanitizeName alphaName16) = 8 := by decide

/-- C8 (amended): an empty join name becomes `"Player"`; a name longer than
15 bytes is cut to its first 15 bytes (for ASCII names this is the first 15
characters); shorter names pass through; the 21-character ASCII example
`abcdefghijklmnopqrstu` becomes `abcdefghijklmno`. -/
theorem sanitizeName_bytes (name : List ℕ) :
    (name = [] → sanitizeName name = playerBytes) ∧
    (name ≠ [] → 15 < name.length → sanitizeName name = name.take 15) ∧
    (name ≠ [] → name.length ≤ 15 → sanitizeName name = name) ∧
    sanitizeName ((List.range 21).map fun i => 97 + i) =
      ((List.range 15).map fun i => 97 + i) := by
  refine ⟨?_, ?_, ?_, by decide⟩
  · intro h
    simp [sanitizeName, h, playerBytes]
  · intro h1 h2
    simp [sanitizeName, h1, h2]
  · intro h1 h2
    have h3 : ¬ (15 < name.length) := by omega
    simp [sanitizeName, h1, h3]

/-- Closed instance of `sanitizeName_bytes` at the empty name. -/
theorem sanitizeName_bytes_witness : sanitizeName [] = playerBytes :=
  (sanitizeName_bytes []).1 rfl

/-- Concrete trig oracle used by closed evaluations whose snakes keep angle 0
(`cos 0 = 1` and `sin 0 = 0` hold exactly; `atan2` results only land in
`TargetAngle` fields that the statements do not constrain). -/
def trigZero : Trig := ⟨fun _ => 1, fun _ => 0, fun _ _ => 0⟩

/-- Concrete `rand.Float64` oracle stream (all draws one half). -/
def jfHalf : ℕ → ℚ := fun _ => 1/2

/-- Concrete `rand.Intn` oracle stream (all draws zero). -/
def jcZero : ℕ → ℤ := fun _ => 0

/-- The exact rational value of the `float64` constant `math.Pi`. -/
def piF64 : ℚ := 884279719003555 / 281474976710656

/-- The boost meter after one full `updateSnake`. -/
theorem updateSnake_boost (T : Trig) (piQ : ℚ) (jf : ℕ → ℚ) (jc : ℕ → ℤ)
    (cfg : GameConfig) (frame : ℤ) (s : Snake) :
    (updateSnake T piQ jf jc cfg frame s).1.boost =
      if s.alive = false then s.boost
      else if s.isBoosting = true ∧ 0 < s.boost ∧ 12 < s.segments.length
      then s.boost - cfg.boostDrain
      else if s.boost < cfg.maxBoost then s.boost + cfg.boostRegen
      else s.boost := by
  by_cases ha : s.alive = false
  · simp [updateSnake, ha]
  · simp only [updateSnake]
    rw [if_neg ha, if_neg ha]
    rw [stepMove_boost, stepBoost_boost]
    simp only [stepInv_isBoosting, stepInv_boost, stepInv_segments,
      stepSteer_isBoosting, stepSteer_boost, stepSteer_segments]

/-- C4 (amended): with the default rates (`BoostDrain = 0.6 = 4·BoostRegen`,
`BoostRegen = 0.15`, `MaxBoost = 100`), a boost meter on the grid
`100 − 0.15·k` stays on it after a tick, hence never exceeds `MaxBoost`; and
a tick never takes a meter that is above `−BoostDrain` to or below
`−BoostDrain` — but a boosting drain from a meter in `(0, BoostDrain)` does
land strictly below zero. -/
theorem boost_meter_grid (T : Trig) (piQ : ℚ) (jf : ℕ → ℚ) (jc : ℕ → ℤ)
    (frame : ℤ) (s : Snake) (m : ℕ) (hm : s.boost = 100 - (3/20) * m) :
    (∃ k : ℕ, (updateSnake T piQ jf jc defaultConfig frame s).1.boost = 100 - (3/20) * k) ∧
    (updateSnake T piQ jf jc defaultConfig frame s).1.boost ≤ 100 ∧
    (-(3/5) < s.boost → -(3/5) < (updateSnake T piQ jf jc defaultConfig frame s).1.boost) := by
  have hm0 : (0 : ℚ) ≤ (3/20) * m := by positivity
  rw [updateSnake_boost]
  simp only [defaultConfig]
  split_ifs with h1 h2 h3
  · exact ⟨⟨m, hm⟩, by rw [hm]; linarith, fun h => h⟩
  · refine ⟨⟨m + 4, ?_⟩, by rw [hm]; linarith, fun _ => by linarith [h2.2.1]⟩
    rw [hm]; push_cast; ring
  · have hm1 : 1 ≤ m := by
      by_contra hc
      have : m = 0 := by omega
      rw [this] at hm
      rw [hm] at h3
      norm_num at h3
    refine ⟨⟨m - 1, ?_⟩, ?_, fun h => by linarith⟩
    · rw [hm]
      have : ((m - 1 : ℕ) : ℚ) = (m : ℚ) - 1 := by
        push_cast [hm1]; ring
      rw [this]; ring
    · rw [hm]
      have : (1 : ℚ) ≤ (m : ℚ) := by exact_mod_cast hm1
      nlinarith
  · exact ⟨⟨m, hm⟩, by rw [hm]; linarith, fun h => h⟩

/-- Closed instance of `boost_meter_grid` at a dead snake with a full meter. -/
theorem boost_meter_grid_witness :
    (∃ k : ℕ, (updateSnake trigZero piF64 jfHalf jcZero defaultConfig 0
        ({ sDefault with boost := 100 })).1.boost = 100 - (3/20) * k) ∧
    (updateSnake trigZero piF64 jfHalf jcZero defaultConfig 0
        ({ sDefault with boost := 100 })).1.boost ≤ 100 ∧
    (-(3/5) < ({ sDefault with boost := 100 } : Snake).boost →
      -(3/5) < (updateSnake trigZero piF64 jfHalf jcZero defaultConfig 0
        ({ sDefault with boost := 100 })).1.boost) :=
  boost_meter_grid trigZero piF64 jfHalf jcZero 0 ({ sDefault with boost := 100 }) 0
    (by norm_num [sDefault])

/-- Thirteen collinear segments with the head at the arena centre. -/
def segsCenter13 : List Vec2 :=
  [⟨5000, 5000⟩, ⟨4992, 5000⟩, ⟨4984, 5000⟩, ⟨4976, 5000⟩, ⟨4968, 5000⟩,
   ⟨4960, 5000⟩, ⟨4952, 5000⟩, ⟨4944, 5000⟩, ⟨4936, 5000⟩, ⟨4928, 5000⟩,
   ⟨4920, 5000⟩, ⟨4912, 5000⟩, ⟨4904, 5000⟩]

/-- A boosting snake whose meter `0.4 = 100 − 0.15·664` sits on the reachable
drain/regen grid strictly between `0` and `BoostDrain`. -/
def lowBoostSnake : Snake :=
  { name := "Boa", segments := segsCenter13, angle := 0, targetAngle := 0
    speed := 16/5, colorIdx := 0, isAI := true, playerID := -2, score := 3
    targetLen := 10, boost := 2/5, isBoosting := true, alive := true
    invTimer := 0, respawnTmr := 0, aiState := "hunt", aiStateTimer := 5
    aiTargetAngle := 0 }

/-- C4 counterexample: draining fires whenever the meter is positive, so a
boosting snake with meter `0.4` ends the tick at `−0.2 < 0`, violating
`B ∈ [0, MaxBoost]` (the serializer clamps negative meters to `0` on the
wire, confirming that negative values occur). -/
theorem boost_drains_below_zero :
    lowBoostSnake.boost = 100 - (3/20) * ((664 : ℕ) : ℚ) ∧
    0 < lowBoostSnake.boost ∧
    (updateSnake trigZero piF64 jfHalf jcZero defaultConfig 1 lowBoostSnake).1.boost < 0 := by
  refine ⟨by norm_num [lowBoostSnake], by norm_num [lowBoostSnake], ?_⟩
  rw [updateSnake_boost]
  norm_num [lowBoostSnake, segsCenter13, defaultConfig]

/-- C7: when the advanced head position leaves the `BoundaryMargin` box, a
human snake dies that tick, while an AI snake keeps its segments untouched
(no head prepend, no tail truncation) and has its target heading set toward
the arena centre. -/
theorem boundary_behavior (T : Trig) (piQ : ℚ) (jf : ℕ → ℚ) (jc : ℕ → ℤ)
    (cfg : GameConfig) (frame : ℤ) (s : Snake)
    (ha : s.alive = true)
    (hout : outOfBounds cfg
      (newHead T (stepBoost jf jc cfg frame (stepSteer piQ cfg (stepInv s))).1) = true) :
    (s.isAI = false → (updateSnake T piQ jf jc cfg frame s).1.alive = false) ∧
    (s.isAI = true →
      (updateSnake T piQ jf jc cfg frame s).1.alive = true ∧
      (updateSnake T piQ jf jc cfg frame s).1.segments = s.segments ∧
      (updateSnake T piQ jf jc cfg frame s).1.targetAngle =
        T.atan2 ((cfg.worldSize : ℚ)/2 - (hdSeg s.segments).y)
                ((cfg.worldSize : ℚ)/2 - (hdSeg s.segments).x)) := by
  have ha2 : ¬ (s.alive = false) := by rw [ha]; simp
  have hupd : (updateSnake T piQ jf jc cfg frame s).1 =
      (stepMove T jf jc cfg
        (stepBoost jf jc cfg frame (stepSteer piQ cfg (stepInv s))).1).1 := by
    simp only [updateSnake]
    rw [if_neg ha2]
  have hseg2 : (stepBoost jf jc cfg frame (stepSteer piQ cfg (stepInv s))).1.segments =
      s.segments := by simp
  have hai2 : (stepBoost jf jc cfg frame (stepSteer piQ cfg (stepInv s))).1.isAI =
      s.isAI := by simp
  have hal2 : (stepBoost jf jc cfg frame (stepSteer piQ cfg (stepInv s))).1.alive =
      s.alive := by simp
  constructor
  · intro hhuman
    rw [hupd]
    unfold stepMove
    rw [if_pos hout, if_pos (by rw [hai2, hhuman])]
    rw [killSnake_of_alive _ _ _ _ (by rw [hal2, ha])]
  · intro hai
    rw [hupd]
    unfold stepMove
    rw [if_pos hout, if_neg (by rw [hai2, hai]; simp)]
    refine ⟨?_, ?_, ?_⟩
    · show (stepBoost jf jc cfg frame (stepSteer piQ cfg (stepInv s))).1.alive = true
      rw [hal2, ha]
    · show (stepBoost jf jc cfg frame (stepSteer piQ cfg (stepInv s))).1.segments = s.segments
      exact hseg2
    · show T.atan2 _ _ = _
      rw [hseg2]

/-- Ten collinear segments with the head close to the right-hand killing
boundary of the default arena. -/
def segsEdge10 : List Vec2 :=
  [⟨9947, 5000⟩, ⟨9939, 5000⟩, ⟨9931, 5000⟩, ⟨9923, 5000⟩, ⟨9915, 5000⟩,
   ⟨9907, 5000⟩, ⟨9899, 5000⟩, ⟨9891, 5000⟩, ⟨9883, 5000⟩, ⟨9875, 5000⟩]

/-- An AI snake heading straight into the right wall at base speed. -/
def edgeAISnake : Snake :=
  { name := "Adder", segments := segsEdge10, angle := 0, targetAngle := 0
    speed := 16/5, colorIdx := 1, isAI := true, playerID := -3, score := 0
    targetLen := 10, boost := 100, isBoosting := false, alive := true
    invTimer := 0, respawnTmr := 0, aiState := "wander", aiStateTimer := 9
    aiTargetAngle := 0 }

/-- Closed instance of `boundary_behavior`: the edge AI pivots and skips the
move. -/
theorem boundary_behavior_witness :
    (updateSnake trigZero piF64 jfHalf jcZero defaultConfig 1 edgeAISnake).1.alive = true ∧
    (updateSnake trigZero piF64 jfHalf jcZero defaultConfig 1 edgeAISnake).1.segments =
      edgeAISnake.segments ∧
    (updateSnake trigZero piF64 jfHalf jcZero defaultConfig 1 edgeAISnake).1.targetAngle =
      trigZero.atan2 (((defaultConfig.worldSize : ℚ))/2 - (hdSeg edgeAISnake.segments).y)
                     (((defaultConfig.worldSize : ℚ))/2 - (hdSeg edgeAISnake.segments).x) :=
  (boundary_behavior trigZero piF64 jfHalf jcZero defaultConfig 1 edgeAISnake rfl
    (by norm_num [stepInv, stepSteer, stepBoost, newHead, outOfBounds, hdSeg, clampQ,
      angleDiffQ, wrapToPi, edgeAISnake, segsEdge10, trigZero, piF64, defaultConfig])).2 rfl

/-- Thirteen collinear segments with the head near the right-hand killing
boundary of the default arena. -/
def segsEdge13 : List Vec2 :=
  [⟨9947, 5000⟩, ⟨9939, 5000⟩, ⟨9931, 5000⟩, ⟨9923, 5000⟩, ⟨9915, 5000⟩,
   ⟨9907, 5000⟩, ⟨9899, 5000⟩, ⟨9891, 5000⟩, ⟨9883, 5000⟩, ⟨9875, 5000⟩,
   ⟨9867, 5000⟩, ⟨9859, 5000⟩, ⟨9851, 5000⟩]

/-- A boosting AI snake heading into the right wall with
`|segments| = TargetLen = 13`, so the segment-count invariant holds before
the tick. -/
def edgeBoostAI : Snake :=
  { name := "Viper", segments := segsEdge13, angle := 0, targetAngle := 0
    speed := 16/5, colorIdx := 0, isAI := true, playerID := -1, score := 3
    targetLen := 13, boost := 50, isBoosting := true, alive := true
    invTimer := 0, respawnTmr := 0, aiState := "flee", aiStateTimer := 5
    aiTargetAngle := 0 }

/-- C3 violation: on a frame divisible by 8, the boosting AI sheds
`TargetLen` to 12 before the boundary check, then the boundary branch skips
the move, so the tick ends with an alive snake whose 13 segments exceed its
`TargetLen` — and neither the food pass (no pellet in range) nor collision
resolution (no other snake) restores `|segments| ≤ TargetLen`. -/
theorem boundary_shed_breaks_length_invariant :
    edgeBoostAI.alive = true ∧
    edgeBoostAI.segments.length = 13 ∧ edgeBoostAI.targetLen = 13 ∧
    (updateSnake trigZero piF64 jfHalf jcZero defaultConfig 8 edgeBoostAI).1.alive = true ∧
    (updateSnake trigZero piF64 jfHalf jcZero defaultConfig 8 edgeBoostAI).1.targetLen = 12 ∧
    (updateSnake trigZero piF64 jfHalf jcZero defaultConfig 8 edgeBoostAI).1.segments.length
      = 13 ∧
    (checkFoodCollision
        (updateSnake trigZero piF64 jfHalf jcZero defaultConfig 8 edgeBoostAI).1 []).1 =
      (updateSnake trigZero piF64 jfHalf jcZero defaultConfig 8 edgeBoostAI).1 ∧
    (checkSnakeCollisions (fun _ _ => 1/2) (fun _ _ => 0) defaultConfig
        ⟨[(updateSnake trigZero piF64 jfHalf jcZero defaultConfig 8 edgeBoostAI).1],
          [], []⟩).snakes =
      [(updateSnake trigZero piF64 jfHalf jcZero defaultConfig 8 edgeBoostAI).1] := by
  refine ⟨rfl, by norm_num [edgeBoostAI, segsEdge13], by norm_num [edgeBoostAI], ?_⟩
  have hrun : (updateSnake trigZero piF64 jfHalf jcZero defaultConfig 8 edgeBoostAI).1 =
      { edgeBoostAI with speed := 11/2, boost := 247/5, targetLen := 12
                         targetAngle := trigZero.atan2 (5000 - 5000) (5000 - 9947) } := by
    norm_num [updateSnake, stepInv, stepSteer, stepBoost, stepMove, newHead, outOfBounds,
      hdSeg, truncateTo, clampQ, angleDiffQ, wrapToPi, edgeBoostAI, segsEdge13,
      trigZero, jfHalf, jcZero, piF64, defaultConfig]
  rw [hrun]
  refine ⟨rfl, rfl, by norm_num [edgeBoostAI, segsEdge13], ?_, ?_⟩
  · norm_num [checkFoodCollision, foodLoop, edgeBoostAI]
  · norm_num [checkSnakeCollisions, collideStep, killerIdx, killerCand,
      List.range_succ, List.range_zero, List.find?_cons, List.find?_nil,
      List.foldl_cons, List.foldl_nil, edgeBoostAI, segsEdge13]

theorem updateSnake_invTimer_ge (T : Trig) (piQ : ℚ) (jf : ℕ → ℚ) (jc : ℕ → ℤ)
    (cfg : GameConfig) (frame : ℤ) (s : Snake) (h : 2 ≤ s.invTimer) :
    1 ≤ (updateSnake T piQ jf jc cfg frame s).1.invTimer := by
  by_cases ha : s.alive = false
  · simp only [updateSnake, if_pos ha]
    omega
  · simp only [updateSnake, if_neg ha]
    rw [stepMove_invTimer, stepBoost_invTimer, stepSteer_invTimer]
    exact stepInv_invTimer_ge s 1 (by omega)

theorem foodLoop_preserves (head : Vec2) (hr : ℚ) :
    ∀ (i : ℕ) (foods : List Food) (s : Snake),
      (foodLoop head hr i foods s).2.alive = s.alive ∧
      (foodLoop head hr i foods s).2.invTimer = s.invTimer ∧
      (foodLoop head hr i foods s).2.segments = s.segments := by
  intro i
  induction i with
  | zero => intro foods s; exact ⟨rfl, rfl, rfl⟩
  | succ n ih =>
    intro foods s
    unfold foodLoop
    rcases hf : foods[n]? with _ | f
    · exact ih foods s
    · dsimp only
      by_cases hhit : distSqQ head ⟨f.x, f.y⟩ < (hr + f.radius) * (hr + f.radius)
      · rw [if_pos hhit]
        rcases ih ((foods.set n (foods.getLastD f)).take (foods.length - 1))
          (growSnake s (round f.value)) with ⟨h1, h2, h3⟩
        rw [h1, h2, h3]
        exact ⟨rfl, rfl, rfl⟩
      · rw [if_neg hhit]
        exact ih foods s

theorem checkFoodCollision_preserves (s : Snake) (foods : List Food) :
    (checkFoodCollision s foods).1.alive = s.alive ∧
    (checkFoodCollision s foods).1.invTimer = s.invTimer ∧
    (checkFoodCollision s foods).1.segments = s.segments := by
  unfold checkFoodCollision
  split
  · exact ⟨rfl, rfl, rfl⟩
  · exact foodLoop_preserves (hdSeg s.segments) (headRadiusQ s) foods.length foods s

theorem collideStep_preserves (jf : ℕ → ℕ → ℚ) (jc : ℕ → ℕ → ℤ)
    (cfg : GameConfig) (i : ℕ) (t0 : Snake) (hinv : 1 ≤ t0.invTimer)
    (w : World) (k : ℕ) (t : Snake)
    (hi : w.snakes[i]? = some t)
    (hal : t.alive = t0.alive) (hiv : t.invTimer = t0.invTimer)
    (hsg : t.segments = t0.segments) :
    ∃ u, (collideStep jf jc cfg w k).snakes[i]? = some u ∧
      u.alive = t0.alive ∧ u.invTimer = t0.invTimer ∧ u.segments = t0.segments := by
  unfold collideStep
  rcases hk : w.snakes[k]? with _ | sk
  · exact ⟨t, hi, hal, hiv, hsg⟩
  · dsimp only
    by_cases hg : sk.alive = false ∨ 0 < sk.invTimer
    · rw [if_pos hg]
      exact ⟨t, hi, hal, hiv, hsg⟩
    · rw [if_neg hg]
      by_cases hki : k = i
      · exfalso
        rw [hki, hi] at hk
        injection hk with hk2
        rw [hk2.symm] at hg
        rw [hiv] at hg
        exact hg (Or.inr (by omega))
      · rcases hkill : killerIdx w.snakes k sk with _ | j
        · exact ⟨t, hi, hal, hiv, hsg⟩
        · dsimp only
          have hi1 : (w.snakes.set k (killSnake (jf k) (jc k) cfg sk).1)[i]? = some t := by
            rw [List.getElem?_set_ne hki]
            exact hi
          rcases hj : (w.snakes.set k (killSnake (jf k) (jc k) cfg sk).1)[j]? with _ | o
          · exact ⟨t, hi1, hal, hiv, hsg⟩
          · dsimp only
            by_cases hji : j = i
            · subst hji
              rw [hi1] at hj
              injection hj with hj2
              subst hj2
              have hlt : j < (w.snakes.set k (killSnake (jf k) (jc k) cfg sk).1).length :=
                (List.getElem?_eq_some.mp hi1).1
              refine ⟨growSnake t ((3 * (sk.segments.length : ℤ)) / 10), ?_,
                by rw [growSnake_alive, hal], by rw [growSnake_invTimer, hiv],
                by rw [growSnake_segments, hsg]⟩
              show ((w.snakes.set k (killSnake (jf k) (jc k) cfg sk).1).set j _)[j]? = _
              rw [List.getElem?_set_eq_of_lt _ hlt]
            · refine ⟨t, ?_, hal, hiv, hsg⟩
              show ((w.snakes.set k (killSnake (jf k) (jc k) cfg sk).1).set j _)[i]? = _
              rw [List.getElem?_set_ne hji]
              exact hi1

theorem collideFold_preserves (jf : ℕ → ℕ → ℚ) (jc : ℕ → ℕ → ℤ)
    (cfg : GameConfig) (i : ℕ) (t0 : Snake) (hinv : 1 ≤ t0.invTimer) :
    ∀ (idxs : List ℕ) (w : World) (t : Snake),
      w.snakes[i]? = some t →
      t.alive = t0.alive → t.invTimer = t0.invTimer → t.segments = t0.segments →
      ∃ u, (idxs.foldl (collideStep jf jc cfg) w).snakes[i]? = some u ∧
        u.alive = t0.alive ∧ u.invTimer = t0.invTimer ∧ u.segments = t0.segments := by
  intro idxs
  induction idxs with
  | nil => intro w t hi hal hiv hsg; exact ⟨t, hi, hal, hiv, hsg⟩
  | cons k rest ih =>
    intro w t hi hal hiv hsg
    rcases collideStep_preserves jf jc cfg i t0 hinv w k t hi hal hiv hsg with
      ⟨u, hu, hua, hui, hus⟩
    exact ih (collideStep jf jc cfg w k) u hu hua hui hus

/-- C6 (amended): a snake whose invulnerability timer is at least 2 at the
start of the tick still has a positive timer after its movement update (the
tick decrements the timer by at most one before collisions are resolved),
the food pass never changes aliveness or the timer, and a snake whose timer
is positive when snake-snake collisions are resolved keeps its aliveness
through the whole collision pass.  A timer of exactly 1 at tick start gives
no such protection (see the matching counterexample). -/
theorem inv_at_least_two_survives_collisions (T : Trig) (piQ : ℚ)
    (jf1 : ℕ → ℚ) (jc1 : ℕ → ℤ) (jf : ℕ → ℕ → ℚ) (jc : ℕ → ℕ → ℤ)
    (cfg : GameConfig) (frame : ℤ) (s : Snake) (w : World) (i : ℕ) (t : Snake)
    (hs : 2 ≤ s.invTimer)
    (hw : w.snakes[i]? = some t) (ht : 1 ≤ t.invTimer) :
    1 ≤ (updateSnake T piQ jf1 jc1 cfg frame s).1.invTimer ∧
    (∀ foods, (checkFoodCollision s foods).1.alive = s.alive ∧
      (checkFoodCollision s foods).1.invTimer = s.invTimer) ∧
    (∃ u, (checkSnakeCollisions jf jc cfg w).snakes[i]? = some u ∧
      u.alive = t.alive ∧ u.invTimer = t.invTimer) := by
  refine ⟨updateSnake_invTimer_ge T piQ jf1 jc1 cfg frame s hs, ?_, ?_⟩
  · intro foods
    rcases checkFoodCollision_preserves s foods with ⟨h1, h2, _⟩
    exact ⟨h1, h2⟩
  · rcases collideFold_preserves jf jc cfg i t ht (List.range w.snakes.length) w t hw
      rfl rfl rfl with ⟨u, hu, hua, hui, _⟩
    exact ⟨u, hu, hua, hui⟩

/-- Closed instance of `inv_at_least_two_survives_collisions`: a freshly
spawned snake (timer 120) in a single-snake world keeps its aliveness. -/
theorem inv_at_least_two_survives_collisions_witness :
    1 ≤ (updateSnake trigZero piF64 jfHalf jcZero defaultConfig 1
      ({ sDefault with invTimer := 120 })).1.invTimer ∧
    (∀ foods,
      (checkFoodCollision ({ sDefault with invTimer := 120 }) foods).1.alive =
        ({ sDefault with invTimer := 120 } : Snake).alive ∧
      (checkFoodCollision ({ sDefault with invTimer := 120 }) foods).1.invTimer =
        ({ sDefault with invTimer := 120 } : Snake).invTimer) ∧
    (∃ u, (checkSnakeCollisions (fun _ _ => 1/2) (fun _ _ => 0) defaultConfig
        ⟨[{ sDefault with invTimer := 120 }], [], []⟩).snakes[0]? = some u ∧
      u.alive = ({ sDefault with invTimer := 120 } : Snake).alive ∧
      u.invTimer = ({ sDefault with invTimer := 120 } : Snake).invTimer) :=
  inv_at_least_two_survives_collisions trigZero piF64 jfHalf jcZero
    (fun _ _ => 1/2) (fun _ _ => 0) defaultConfig 1
    ({ sDefault with invTimer := 120 }) ⟨[{ sDefault with invTimer := 120 }], [], []⟩ 0
    ({ sDefault with invTimer := 120 })
    (by norm_num [sDefault]) (by simp) (by norm_num [sDefault])

/-- A human snake one frame from the end of its grace period, heading right
at base speed. -/
def invOneSnake : Snake :=
  { name := "Kim", segments :=
      [⟨1000, 1000⟩, ⟨992, 1000⟩, ⟨984, 1000⟩, ⟨976, 1000⟩, ⟨968, 1000⟩,
       ⟨960, 1000⟩, ⟨952, 1000⟩, ⟨944, 1000⟩, ⟨936, 1000⟩, ⟨928, 1000⟩]
    angle := 0, targetAngle := 0, speed := 16/5, colorIdx := 2, isAI := false
    playerID := 2, score := 0, targetLen := 10, boost := 100, isBoosting := false
    alive := true, invTimer := 1, respawnTmr := 0, aiState := "wander"
    aiStateTimer := 0, aiTargetAngle := 0 }

/-- A second snake whose body segment 10 sits right where `invOneSnake`'s
head lands. -/
def bodyOwner : Snake :=
  { name := "Ida", segments :=
      [⟨1100, 1000⟩, ⟨1108, 1000⟩, ⟨1116, 1000⟩, ⟨1124, 1000⟩, ⟨1132, 1000⟩,
       ⟨1140, 1000⟩, ⟨1148, 1000⟩, ⟨1156, 1000⟩, ⟨1164, 1000⟩, ⟨1172, 1000⟩,
       ⟨1003, 1000⟩, ⟨1188, 1000⟩, ⟨1196, 1000⟩, ⟨1204, 1000⟩, ⟨1212, 1000⟩,
       ⟨1220, 1000⟩, ⟨1228, 1000⟩, ⟨1236, 1000⟩, ⟨1244, 1000⟩, ⟨1252, 1000⟩]
    angle := 0, targetAngle := 0, speed := 16/5, colorIdx := 3, isAI := false
    playerID := 3, score := 0, targetLen := 20, boost := 100, isBoosting := false
    alive := true, invTimer := 5, respawnTmr := 0, aiState := "wander"
    aiStateTimer := 0, aiTargetAngle := 0 }

/-- C6 counterexample: a snake entering the tick with `inv = 1 > 0` has the
timer decremented to 0 by its movement update, so the same tick's collision
pass kills it when its head lands in another snake's body. -/
theorem inv_one_dies_same_tick :
    invOneSnake.invTimer = 1 ∧ 0 < invOneSnake.invTimer ∧ invOneSnake.alive = true ∧
    (updateSnake trigZero piF64 jfHalf jcZero defaultConfig 1 invOneSnake).1.invTimer = 0 ∧
    ((checkSnakeCollisions (fun _ _ => 1/2) (fun _ _ => 0) defaultConfig
      ⟨[(updateSnake trigZero piF64 jfHalf jcZero defaultConfig 1 invOneSnake).1,
        bodyOwner], [], []⟩).snakes.getD 0 sDefault).alive = false := by
  have hrun : (updateSnake trigZero piF64 jfHalf jcZero defaultConfig 1 invOneSnake).1 =
      { invOneSnake with invTimer := 0, segments :=
          [⟨5016/5, 1000⟩, ⟨1000, 1000⟩, ⟨992, 1000⟩, ⟨984, 1000⟩, ⟨976, 1000⟩,
           ⟨968, 1000⟩, ⟨960, 1000⟩, ⟨952, 1000⟩, ⟨944, 1000⟩, ⟨936, 1000⟩] } := by
    norm_num [updateSnake, stepInv, stepSteer, stepBoost, stepMove, newHead, outOfBounds,
      hdSeg, truncateTo, clampQ, angleDiffQ, wrapToPi, invOneSnake, trigZero, jfHalf,
      jcZero, piF64, defaultConfig]
    rfl
  refine ⟨rfl, by norm_num [invOneSnake], rfl, by rw [hrun], ?_⟩
  rw [hrun]
  norm_num [checkSnakeCollisions, collideStep, killerIdx, killerCand, bodyHit,
    killSnake, killFoods, growSnake, headRadiusQ, bodyRadiusQ, distSqQ, hdSeg,
    min_def, List.range_succ, List.range_zero, List.find?_cons, List.find?_nil,
    List.foldl_cons, List.foldl_nil, invOneSnake, bodyOwner, sDefault, defaultConfig]

theorem bodyHit_iff (s o : Snake) :
    bodyHit s o = true ↔ ∃ k, 5 ≤ k ∧ k < o.segments.length ∧
      distSqQ (hdSeg s.segments) (o.segments.getD k ⟨0, 0⟩) <
        (headRadiusQ s + bodyRadiusQ o - 4) * (headRadiusQ s + bodyRadiusQ o - 4) := by
  unfold bodyHit
  rw [List.any_eq_true]
  constructor
  · rintro ⟨seg, hmem, hp⟩
    rw [decide_eq_true_iff] at hp
    rw [List.mem_iff_getElem] at hmem
    obtain ⟨m, hm, heq⟩ := hmem
    have hlen : 5 + m < o.segments.length := by
      rw [List.length_drop] at hm
      omega
    refine ⟨5 + m, by omega, hlen, ?_⟩
    have hgd : o.segments.getD (5 + m) ⟨0, 0⟩ = seg := by
      rw [List.getD_eq_getElem?_getD, List.getElem?_eq_getElem hlen, Option.getD_some]
      rw [← heq]
      simp
    rw [hgd]
    exact hp
  · rintro ⟨k, hk5, hklen, hdist⟩
    refine ⟨o.segments.getD k ⟨0, 0⟩, ?_, decide_eq_true hdist⟩
    rw [List.mem_iff_getElem]
    refine ⟨k - 5, by rw [List.length_drop]; omega, ?_⟩
    have h5 : 5 + (k - 5) = k := by omega
    rw [List.getD_eq_getElem?_getD, List.getElem?_eq_getElem hklen, Option.getD_some]
    simp [h5]

theorem killerCand_iff (snakes : List Snake) (i : ℕ) (s : Snake) (j : ℕ) :
    killerCand snakes i s j = true ↔
      (j ≠ i ∧ ∃ o, snakes[j]? = some o ∧ o.alive = true ∧
        distSqQ (hdSeg s.segments) (hdSeg o.segments) ≤
          ((o.segments.length : ℚ) * 8 + headRadiusQ s + 50) *
          ((o.segments.length : ℚ) * 8 + headRadiusQ s + 50) ∧
        bodyHit s o = true) := by
  unfold killerCand
  by_cases hji : j = i
  · simp [hji]
  · rw [if_neg hji]
    rcases hj : snakes[j]? with _ | o
    · simp
    · dsimp only
      by_cases hal : o.alive = false
      · rw [if_pos hal]
        constructor
        · intro h
          cases h
        · rintro ⟨_, o2, ho2, hlive, _, _⟩
          injection ho2 with ho3
          rw [← ho3, hal] at hlive
          cases hlive
      · have hal2 : o.alive = true := by
          cases h2 : o.alive
          · exact absurd h2 hal
          · rfl
        rw [if_neg hal]
        split_ifs with hfar
        · rw [decide_eq_true_iff] at hfar
          constructor
          · intro h
            cases h
          · rintro ⟨_, o2, ho2, _, hle, _⟩
            injection ho2 with ho3
            rw [← ho3] at hle
            exact absurd hle (not_le.mpr hfar)
        · rw [decide_eq_true_iff, not_lt] at hfar
          constructor
          · intro hb
            exact ⟨hji, o, rfl, hal2, hfar, hb⟩
          · rintro ⟨_, o2, ho2, _, _, hb⟩
            injection ho2 with ho3
            rw [← ho3] at hb
            exact hb

theorem killerIdx_isSome_iff (snakes : List Snake) (i : ℕ) (s : Snake) :
    (killerIdx snakes i s).isSome = true ↔
      ∃ j, j < snakes.length ∧ killerCand snakes i s j = true := by
  unfold killerIdx
  rw [List.find?_isSome]
  constructor
  · rintro ⟨j, hj, hp⟩
    exact ⟨j, by simpa [List.mem_range] using hj, hp⟩
  · rintro ⟨j, hj, hp⟩
    exact ⟨j, by simpa [List.mem_range] using hj, hp⟩

theorem killerIdx_eq_some (snakes : List Snake) (i : ℕ) (s : Snake) (j : ℕ)
    (h : killerIdx snakes i s = some j) :
    killerCand snakes i s j = true ∧ j < snakes.length ∧
    ∀ j2, j2 < j → killerCand snakes i s j2 = false := by
  have hcand := List.find?_some h
  have hmem := List.mem_of_find?_eq_some h
  rw [List.mem_range] at hmem
  refine ⟨hcand, hmem, ?_⟩
  unfold killerIdx at h
  rw [List.find?_eq_some] at h
  obtain ⟨_, as, bs, hsplit, hall⟩ := h
  have hlen : as.length < snakes.length := by
    have := congrArg List.length hsplit
    simp at this
    omega
  have hj_eq : j = as.length := by
    have h1 : (as ++ j :: bs)[as.length]? = some j := by
      rw [List.getElem?_append_right (Nat.le_refl as.length)]
      simp
    rw [← hsplit] at h1
    rw [List.getElem?_range hlen] at h1
    injection h1 with h1b
    exact h1b.symm
  have has : as = List.range as.length := by
    have h2 : (as ++ j :: bs).take as.length = as := List.take_left as (j :: bs)
    rw [← hsplit, List.take_range] at h2
    have hmin : min as.length snakes.length = as.length := by omega
    rw [hmin] at h2
    exact h2.symm
  intro j2 hj2
  have hj2mem : j2 ∈ as := by
    rw [has, List.mem_range]
    omega
  have := hall j2 hj2mem
  rwa [Bool.not_eq_true'] at this

/-- Twenty segments, head at (2000, 1000); segment 10 sits next to the other
tie snake's head. -/
def tieA : Snake :=
  { name := "TieA", segments :=
      [⟨2000, 1000⟩, ⟨1992, 1000⟩, ⟨1984, 1000⟩, ⟨1976, 1000⟩, ⟨1968, 1000⟩,
       ⟨1960, 1000⟩, ⟨1952, 1000⟩, ⟨1944, 1000⟩, ⟨1936, 1000⟩, ⟨1928, 1000⟩,
       ⟨4201/2, 1000⟩, ⟨1912, 1000⟩, ⟨1904, 1000⟩, ⟨1896, 1000⟩, ⟨1888, 1000⟩,
       ⟨1880, 1000⟩, ⟨1872, 1000⟩, ⟨1864, 1000⟩, ⟨1856, 1000⟩, ⟨1848, 1000⟩]
    angle := 0, targetAngle := 0, speed := 16/5, colorIdx := 4, isAI := false
    playerID := 4, score := 0, targetLen := 20, boost := 100, isBoosting := false
    alive := true, invTimer := 0, respawnTmr := 0, aiState := "wander"
    aiStateTimer := 0, aiTargetAngle := 0 }

/-- Twenty segments, head at (2100, 1000); segment 10 sits next to `tieA`'s
head, so each snake's head lies in the other's body. -/
def tieB : Snake :=
  { name := "TieB", segments :=
      [⟨2100, 1000⟩, ⟨2108, 1000⟩, ⟨2116, 1000⟩, ⟨2124, 1000⟩, ⟨2132, 1000⟩,
       ⟨2140, 1000⟩, ⟨2148, 1000⟩, ⟨2156, 1000⟩, ⟨2164, 1000⟩, ⟨2172, 1000⟩,
       ⟨4001/2, 1000⟩, ⟨2188, 1000⟩, ⟨2196, 1000⟩, ⟨2204, 1000⟩, ⟨2212, 1000⟩,
       ⟨2220, 1000⟩, ⟨2228, 1000⟩, ⟨2236, 1000⟩, ⟨2244, 1000⟩, ⟨2252, 1000⟩]
    angle := 0, targetAngle := 0, speed := 16/5, colorIdx := 5, isAI := false
    playerID := 5, score := 0, targetLen := 20, boost := 100, isBoosting := false
    alive := true, invTimer := 0, respawnTmr := 0, aiState := "wander"
    aiStateTimer := 0, aiTargetAngle := 0 }

/-- C5: snake-snake collision resolution.  For an alive attacker `s` with
`inv = 0` at index `i`: (a) any other alive snake whose head is farther than
the rough bound `(|segₒ|·8 + headRₛ + 50)²` is never selected; (b) a kill
happens exactly when some other alive snake within the bound has a segment,
scanned from index 5 on, strictly inside `(headRₛ + bodyRₒ − 4)²`; (c) with
no killer the step changes nothing; (d) the selected killer is the first
candidate in stable list order, `s` dies, and exactly that killer grows
`TargetLen` and score by `⌊0.3·|segsₛ|⌋`; and (on the concrete tie world
`[tieA, tieB]` where each head sits in the other's body) the snake scanned
first dies while the second survives and grows. -/
theorem snake_collision_resolution (jf : ℕ → ℕ → ℚ) (jc : ℕ → ℕ → ℤ)
    (cfg : GameConfig) (w : World) (i : ℕ) (s : Snake)
    (hi : w.snakes[i]? = some s) (ha : s.alive = true) (hinv : s.invTimer ≤ 0) :
    (∀ j o, w.snakes[j]? = some o → j ≠ i → o.alive = true →
      ((o.segments.length : ℚ) * 8 + headRadiusQ s + 50) *
        ((o.segments.length : ℚ) * 8 + headRadiusQ s + 50) <
        distSqQ (hdSeg s.segments) (hdSeg o.segments) →
      killerIdx w.snakes i s ≠ some j) ∧
    ((killerIdx w.snakes i s).isSome = true ↔
      ∃ j o, w.snakes[j]? = some o ∧ j ≠ i ∧ o.alive = true ∧
        distSqQ (hdSeg s.segments) (hdSeg o.segments) ≤
          ((o.segments.length : ℚ) * 8 + headRadiusQ s + 50) *
          ((o.segments.length : ℚ) * 8 + headRadiusQ s + 50) ∧
        ∃ k, 5 ≤ k ∧ k < o.segments.length ∧
          distSqQ (hdSeg s.segments) (o.segments.getD k ⟨0, 0⟩) <
            (headRadiusQ s + bodyRadiusQ o - 4) * (headRadiusQ s + bodyRadiusQ o - 4)) ∧
    (killerIdx w.snakes i s = none → collideStep jf jc cfg w i = w) ∧
    (∀ j o, killerIdx w.snakes i s = some j → w.snakes[j]? = some o →
      (collideStep jf jc cfg w i).snakes =
        (w.snakes.set i ({ s with alive := false
                                  respawnTmr := if s.isAI then cfg.aiRespawnTicks
                                                else s.respawnTmr })).set j
          (growSnake o ((3 * (s.segments.length : ℤ)) / 10)) ∧
      ∀ j2, j2 < j → killerCand w.snakes i s j2 = false) ∧
    (killerCand [tieA, tieB] 0 tieA 1 = true ∧
     killerCand [tieA, tieB] 1 tieB 0 = true ∧
     ((checkSnakeCollisions (fun _ _ => 1/2) (fun _ _ => 0) defaultConfig
        ⟨[tieA, tieB], [], []⟩).snakes.getD 0 sDefault).alive = false ∧
     ((checkSnakeCollisions (fun _ _ => 1/2) (fun _ _ => 0) defaultConfig
        ⟨[tieA, tieB], [], []⟩).snakes.getD 1 sDefault).alive = true ∧
     ((checkSnakeCollisions (fun _ _ => 1/2) (fun _ _ => 0) defaultConfig
        ⟨[tieA, tieB], [], []⟩).snakes.getD 1 sDefault).targetLen = 26) := by
  have hguard : ¬ (s.alive = false ∨ 0 < s.invTimer) := by
    rw [ha]
    simp only [Bool.true_eq_false, false_or, not_lt]
    omega
  refine ⟨?_, ?_, ?_, ?_, ?_⟩
  · intro j o ho hne hoal hfar hsome
    rcases killerIdx_eq_some w.snakes i s j hsome with ⟨hcand, _, _⟩
    rcases (killerCand_iff w.snakes i s j).mp hcand with ⟨_, o2, ho2, _, hle, _⟩
    rw [ho] at ho2
    injection ho2 with ho3
    rw [ho3] at hfar
    exact absurd hle (not_le.mpr hfar)
  · rw [killerIdx_isSome_iff]
    constructor
    · rintro ⟨j, _, hcand⟩
      rcases (killerCand_iff w.snakes i s j).mp hcand with ⟨hne, o, ho, hoal, hle, hbh⟩
      exact ⟨j, o, ho, hne, hoal, hle, (bodyHit_iff s o).mp hbh⟩
    · rintro ⟨j, o, ho, hne, hoal, hle, hseg⟩
      refine ⟨j, (List.getElem?_eq_some.mp ho).1, ?_⟩
      rw [killerCand_iff]
      exact ⟨hne, o, ho, hoal, hle, (bodyHit_iff s o).mpr hseg⟩
  · intro hk
    unfold collideStep
    rw [hi]
    dsimp only
    rw [if_neg hguard, hk]
  · intro j o hk ho
    rcases killerIdx_eq_some w.snakes i s j hk with ⟨hcand, _, hfirst⟩
    have hne : j ≠ i := ((killerCand_iff w.snakes i s j).mp hcand).1
    refine ⟨?_, hfirst⟩
    unfold collideStep
    rw [hi]
    dsimp only
    rw [if_neg hguard, hk]
    dsimp only
    have hj1 : (w.snakes.set i (killSnake (jf i) (jc i) cfg s).1)[j]? = some o := by
      rw [List.getElem?_set_ne (Ne.symm hne)]
      exact ho
    rw [hj1]
    dsimp only
    rw [killSnake_of_alive _ _ _ _ ha]
  · refine ⟨?_, ?_, ?_, ?_, ?_⟩ <;>
      norm_num [checkSnakeCollisions, collideStep, killerIdx, killerCand, bodyHit,
        killSnake, killFoods, growSnake, headRadiusQ, bodyRadiusQ, distSqQ, hdSeg,
        min_def, List.range_succ, List.range_zero, List.find?_cons, List.find?_nil,
        List.foldl_cons, List.foldl_nil, tieA, tieB, sDefault, defaultConfig]

/-- A world containing a single alive snake; nothing can kill it. -/
def soloWorld : World :=
  ⟨[{ sDefault with alive := true, playerID := 9, segments := [⟨5000, 5000⟩] }], [], []⟩

/-- Closed instance of `snake_collision_resolution`: with no other snake the
collision step is the identity. -/
theorem snake_collision_resolution_witness :
    collideStep (fun _ _ => 1/2) (fun _ _ => 0) defaultConfig soloWorld 0 = soloWorld :=
  (snake_collision_resolution (fun _ _ => 1/2) (fun _ _ => 0) defaultConfig soloWorld 0
      ({ sDefault with alive := true, playerID := 9, segments := [⟨5000, 5000⟩] })
      rfl rfl (by norm_num [sDefault])).2.2.1
    (by simp [killerIdx, killerCand, soloWorld, List.range_succ, List.range_zero,
      List.find?_cons, List.find?_nil])

/-- Closed instance of `applyInput_frame_effect`: an input for an
unregistered player id changes nothing. -/
theorem applyInput_frame_effect_witness :
    applyInput ⟨[], [], []⟩ ⟨7, 0, false⟩ = ⟨[], [], []⟩ :=
  (applyInput_frame_effect ⟨[], [], []⟩ ⟨7, 0, false⟩).2.2.1 rfl

end Schlangen
